import Mathlib

/-!
Verification of the ksck (Kudu System Check) health-checking model, embedded
from `src/kudu/tools/ksck.h`. Pure inline functions of the header are
translated directly; two functions whose bodies live outside the examined
sources (`Ksck::VerifyTablet` and `Ksck::ServerHealthScore`) are modelled
from the design document and marked as such.
-/

/-- Possible types of consensus configs (`KsckConsensusConfigType`). -/
inductive KsckConsensusConfigType where
  | MASTER
  | COMMITTED
  | PENDING
deriving DecidableEq

/-- Representation of a consensus state (`KsckConsensusState`).
C++ `boost::optional<int64_t>` becomes `Option Int`, `boost::optional<std::string>`
becomes `Option String`, and `std::set<std::string>` becomes `Finset String`. -/
structure KsckConsensusState where
  type : KsckConsensusConfigType
  term : Option Int
  opid_index : Option Int
  leader_uuid : Option String
  voter_uuids : Finset String
  non_voter_uuids : Finset String
deriving DecidableEq

/-- The `KsckConsensusState` constructor: `voter_uuids` / `non_voter_uuids` are
`std::set`s built from the iterator ranges of the input vectors, i.e. the
deduplicated element sets of the lists. -/
def KsckConsensusState.ofVectors
    (type : KsckConsensusConfigType)
    (term : Option Int)
    (opid_index : Option Int)
    (leader_uuid : Option String)
    (voters : List String)
    (non_voters : List String) : KsckConsensusState :=
  { type := type
    term := term
    opid_index := opid_index
    leader_uuid := leader_uuid
    voter_uuids := voters.toFinset
    non_voter_uuids := non_voters.toFinset }

/-- `KsckConsensusState::Matches`: two states match if they have the same
leader and peers and either one is of type MASTER, or they agree on type and
term. Direct translation of the body at ksck.h lines 140-149. -/
def KsckConsensusState.Matches (self other : KsckConsensusState) : Bool :=
  let same_leader_and_peers : Bool :=
    decide (self.leader_uuid = other.leader_uuid) &&
    decide (self.voter_uuids = other.voter_uuids) &&
    decide (self.non_voter_uuids = other.non_voter_uuids)
  if self.type = KsckConsensusConfigType.MASTER ∨
      other.type = KsckConsensusConfigType.MASTER then
    same_leader_and_peers
  else
    decide (self.type = other.type) && decide (self.term = other.term) &&
      same_leader_and_peers

/-- Tablet health classification (`Ksck::CheckResult`). -/
inductive CheckResult where
  | HEALTHY
  | RECOVERING
  | UNDER_REPLICATED
  | UNAVAILABLE
  | CONSENSUS_MISMATCH
deriving DecidableEq

/-- `Ksck::TableSummary`: per-table tally of tablet check results.
The C++ counters are `int`; we use `Int`. -/
structure TableSummary where
  name : String
  healthy_tablets : Int := 0
  recovering_tablets : Int := 0
  underreplicated_tablets : Int := 0
  consensus_mismatch_tablets : Int := 0
  unavailable_tablets : Int := 0

/-- `Ksck::TableSummary::TotalTablets`. -/
def TableSummary.TotalTablets (ts : TableSummary) : Int :=
  ts.healthy_tablets + ts.recovering_tablets + ts.underreplicated_tablets +
    ts.consensus_mismatch_tablets + ts.unavailable_tablets

/-- `Ksck::TableSummary::UnhealthyTablets`. -/
def TableSummary.UnhealthyTablets (ts : TableSummary) : Int :=
  ts.TotalTablets - ts.healthy_tablets

/-- `Ksck::TableSummary::TableStatus`: summarize the table's status with a
tablet CheckResult; direct translation of the if-chain at ksck.h lines 584-598. -/
def TableSummary.TableStatus (ts : TableSummary) : CheckResult :=
  if ts.unavailable_tablets > 0 then
    CheckResult.UNAVAILABLE
  else if ts.consensus_mismatch_tablets > 0 then
    CheckResult.CONSENSUS_MISMATCH
  else if ts.underreplicated_tablets > 0 then
    CheckResult.UNDER_REPLICATED
  else if ts.recovering_tablets > 0 then
    CheckResult.RECOVERING
  else
    CheckResult.HEALTHY

/-- Characterization of `Matches` as a proposition: shared helper for the
claims about the consensus comparison rule. -/
theorem KsckConsensusState.Matches_eq_true_iff (a b : KsckConsensusState) :
    a.Matches b = true ↔
      ((a.leader_uuid = b.leader_uuid ∧ a.voter_uuids = b.voter_uuids ∧
        a.non_voter_uuids = b.non_voter_uuids) ∧
       (a.type = KsckConsensusConfigType.MASTER ∨
        b.type = KsckConsensusConfigType.MASTER ∨
        (a.type = b.type ∧ a.term = b.term))) := by
  unfold KsckConsensusState.Matches
  by_cases h : a.type = KsckConsensusConfigType.MASTER ∨
      b.type = KsckConsensusConfigType.MASTER
  · simp [h]
    tauto
  · simp [h]
    push_neg at h
    tauto

/-- Sample consensus states used by witnesses. -/
def csMaster : KsckConsensusState :=
  { type := KsckConsensusConfigType.MASTER
    term := none
    opid_index := none
    leader_uuid := some "L"
    voter_uuids := {"a", "b", "c"}
    non_voter_uuids := ∅ }

def csCommitted : KsckConsensusState :=
  { type := KsckConsensusConfigType.COMMITTED
    term := some 4
    opid_index := some 7
    leader_uuid := some "L"
    voter_uuids := {"a", "b", "c"}
    non_voter_uuids := ∅ }

def csCommittedB : KsckConsensusState :=
  { type := KsckConsensusConfigType.COMMITTED
    term := some 4
    opid_index := some 9
    leader_uuid := some "L"
    voter_uuids := {"a", "b", "c"}
    non_voter_uuids := ∅ }

/-- C1: when at least one side is of type MASTER, `Matches` holds exactly when
leader, voter set and non-voter set agree — term, opid_index and the other
side's type play no role. -/
theorem matches_master_iff_membership (a b : KsckConsensusState)
    (h : a.type = KsckConsensusConfigType.MASTER ∨
         b.type = KsckConsensusConfigType.MASTER) :
    a.Matches b = true ↔
      (a.leader_uuid = b.leader_uuid ∧ a.voter_uuids = b.voter_uuids ∧
       a.non_voter_uuids = b.non_voter_uuids) := by
  rw [KsckConsensusState.Matches_eq_true_iff]
  tauto

theorem matches_master_iff_membership_witness :
    (csMaster.type = KsckConsensusConfigType.MASTER ∨
     csCommitted.type = KsckConsensusConfigType.MASTER) ∧
    (csMaster.Matches csCommitted = true ↔
      (csMaster.leader_uuid = csCommitted.leader_uuid ∧
       csMaster.voter_uuids = csCommitted.voter_uuids ∧
       csMaster.non_voter_uuids = csCommitted.non_voter_uuids)) :=
  ⟨Or.inl rfl, matches_master_iff_membership csMaster csCommitted (Or.inl rfl)⟩

/-- C2: when neither side is of type MASTER, `Matches` holds exactly when
leader, voter set, non-voter set, type and term all agree. -/
theorem matches_replica_iff (a b : KsckConsensusState)
    (ha : a.type ≠ KsckConsensusConfigType.MASTER)
    (hb : b.type ≠ KsckConsensusConfigType.MASTER) :
    a.Matches b = true ↔
      (a.leader_uuid = b.leader_uuid ∧ a.voter_uuids = b.voter_uuids ∧
       a.non_voter_uuids = b.non_voter_uuids ∧ a.type = b.type ∧
       a.term = b.term) := by
  rw [KsckConsensusState.Matches_eq_true_iff]
  tauto

theorem matches_replica_iff_witness :
    csCommitted.type ≠ KsckConsensusConfigType.MASTER ∧
    csCommittedB.type ≠ KsckConsensusConfigType.MASTER ∧
    (csCommitted.Matches csCommittedB = true ↔
      (csCommitted.leader_uuid = csCommittedB.leader_uuid ∧
       csCommitted.voter_uuids = csCommittedB.voter_uuids ∧
       csCommitted.non_voter_uuids = csCommittedB.non_voter_uuids ∧
       csCommitted.type = csCommittedB.type ∧
       csCommitted.term = csCommittedB.term)) :=
  ⟨by decide, by decide,
   matches_replica_iff csCommitted csCommittedB (by decide) (by decide)⟩

/-- C3: `Matches` is symmetric. -/
theorem matches_symm (a b : KsckConsensusState) :
    a.Matches b = b.Matches a := by
  rw [Bool.eq_iff_iff, KsckConsensusState.Matches_eq_true_iff,
    KsckConsensusState.Matches_eq_true_iff]
  constructor <;> rintro ⟨⟨h1, h2, h3⟩, h4⟩ <;>
    exact ⟨⟨h1.symm, h2.symm, h3.symm⟩, by tauto⟩

/-- C10: `Matches` ignores `opid_index`: two states that differ only in their
opid_index always match. -/
theorem matches_ignores_opid_index (a : KsckConsensusState) (i : Option Int) :
    ({ a with opid_index := i } : KsckConsensusState).Matches a = true := by
  rw [KsckConsensusState.Matches_eq_true_iff]
  exact ⟨⟨rfl, rfl, rfl⟩, Or.inr (Or.inr ⟨rfl, rfl⟩)⟩

/-- C4: `TableStatus` follows the strict severity precedence
UNAVAILABLE > CONSENSUS_MISMATCH > UNDER_REPLICATED > RECOVERING > HEALTHY,
regardless of count magnitudes. -/
theorem tableStatus_severity_precedence (ts : TableSummary) :
    (ts.unavailable_tablets > 0 →
      ts.TableStatus = CheckResult.UNAVAILABLE) ∧
    (ts.unavailable_tablets ≤ 0 → ts.consensus_mismatch_tablets > 0 →
      ts.TableStatus = CheckResult.CONSENSUS_MISMATCH) ∧
    (ts.unavailable_tablets ≤ 0 → ts.consensus_mismatch_tablets ≤ 0 →
      ts.underreplicated_tablets > 0 →
      ts.TableStatus = CheckResult.UNDER_REPLICATED) ∧
    (ts.unavailable_tablets ≤ 0 → ts.consensus_mismatch_tablets ≤ 0 →
      ts.underreplicated_tablets ≤ 0 → ts.recovering_tablets > 0 →
      ts.TableStatus = CheckResult.RECOVERING) ∧
    (ts.unavailable_tablets ≤ 0 → ts.consensus_mismatch_tablets ≤ 0 →
      ts.underreplicated_tablets ≤ 0 → ts.recovering_tablets ≤ 0 →
      ts.TableStatus = CheckResult.HEALTHY) := by
  refine ⟨fun h1 => ?_, fun h1 h2 => ?_, fun h1 h2 h3 => ?_,
    fun h1 h2 h3 h4 => ?_, fun h1 h2 h3 h4 => ?_⟩ <;>
  · unfold TableSummary.TableStatus
    split_ifs <;> first | rfl | omega

/-- The spec's own example: 1 unavailable tablet among 99 healthy ones. -/
def tsOneUnavailable : TableSummary :=
  { name := "t", healthy_tablets := 99, unavailable_tablets := 1 }

theorem tableStatus_severity_precedence_witness :
    tsOneUnavailable.unavailable_tablets > 0 ∧
    tsOneUnavailable.TableStatus = CheckResult.UNAVAILABLE :=
  ⟨by decide, (tableStatus_severity_precedence tsOneUnavailable).1 (by decide)⟩

/-- A constructor input where the same uuid appears among both voters and
non-voters. -/
def csOverlap : KsckConsensusState :=
  KsckConsensusState.ofVectors KsckConsensusConfigType.COMMITTED
    (some 1) none (some "L") ["a"] ["a"]

/-- C6 counterexample: the `KsckConsensusState` constructor does not enforce
disjointness of voter and non-voter uuids — feeding the same uuid in both
input vectors produces overlapping sets. -/
theorem ofVectors_not_disjoint_counterexample :
    ¬ Disjoint csOverlap.voter_uuids csOverlap.non_voter_uuids := by
  simp [csOverlap, KsckConsensusState.ofVectors, Finset.not_disjoint_iff]

/-- C6 (amended): the constructor yields disjoint voter / non-voter sets
whenever the input vectors share no element. -/
theorem ofVectors_disjoint_of_disjoint_inputs
    (type : KsckConsensusConfigType) (term opid_index : Option Int)
    (leader_uuid : Option String) (voters non_voters : List String)
    (h : ∀ x ∈ voters, x ∉ non_voters) :
    Disjoint
      (KsckConsensusState.ofVectors type term opid_index leader_uuid
        voters non_voters).voter_uuids
      (KsckConsensusState.ofVectors type term opid_index leader_uuid
        voters non_voters).non_voter_uuids := by
  simp only [KsckConsensusState.ofVectors, Finset.disjoint_left,
    List.mem_toFinset]
  exact h

theorem ofVectors_disjoint_of_disjoint_inputs_witness :
    (∀ x ∈ ["a"], x ∉ ["b"]) ∧
    Disjoint
      (KsckConsensusState.ofVectors KsckConsensusConfigType.COMMITTED
        (some 1) none (some "L") ["a"] ["b"]).voter_uuids
      (KsckConsensusState.ofVectors KsckConsensusConfigType.COMMITTED
        (some 1) none (some "L") ["a"] ["b"]).non_voter_uuids :=
  ⟨by decide,
   ofVectors_disjoint_of_disjoint_inputs KsckConsensusConfigType.COMMITTED
     (some 1) none (some "L") ["a"] ["b"] (by decide)⟩

/-- All available consensus views of a tablet pairwise agree under `Matches`. -/
def allPairsMatch : List KsckConsensusState → Bool
  | [] => true
  | c :: cs => cs.all (fun d => c.Matches d) && allPairsMatch cs

/-- The facts about one tablet that the health evaluator classifies:
the available consensus views (live replicas plus master, when available),
whether any replica reports an in-progress data copy for this tablet, and
how many voting replicas are reachable and agreeing. -/
structure TabletView where
  consensus_states : List KsckConsensusState
  any_replica_copying : Bool
  reachable_agreeing_voters : Nat

/-- Majority of a replication factor: smallest count strictly above half. -/
def majority (replication_factor : Nat) : Nat :=
  replication_factor / 2 + 1

/-- Modelled from the spec: the body of `Ksck::VerifyTablet` lives in
ksck.cc, which is not among the examined sources (ksck.h only declares it).
The design document gives the evaluation order: (2) any in-progress data copy
classifies RECOVERING; (3) any `Matches` disagreement among available
consensus views classifies CONSENSUS_MISMATCH; (4) fewer reachable agreeing
voters than a majority of the replication factor classifies UNAVAILABLE;
(5) fewer than the replication factor classifies UNDER_REPLICATED;
(6) otherwise HEALTHY. -/
def VerifyTablet (v : TabletView) (table_num_replicas : Nat) : CheckResult :=
  if v.any_replica_copying then
    CheckResult.RECOVERING
  else if ¬ allPairsMatch v.consensus_states then
    CheckResult.CONSENSUS_MISMATCH
  else if v.reachable_agreeing_voters < majority table_num_replicas then
    CheckResult.UNAVAILABLE
  else if v.reachable_agreeing_voters < table_num_replicas then
    CheckResult.UNDER_REPLICATED
  else
    CheckResult.HEALTHY

/-- C5: a tablet with a replica reporting an in-progress data copy and no
proven consensus mismatch is classified RECOVERING, whatever the replica
counts — in particular it is never classified UNDER_REPLICATED. -/
theorem verifyTablet_copying_recovering (v : TabletView)
    (table_num_replicas : Nat)
    (hcopy : v.any_replica_copying = true)
    (_hmatch : allPairsMatch v.consensus_states = true) :
    VerifyTablet v table_num_replicas = CheckResult.RECOVERING ∧
    VerifyTablet v table_num_replicas ≠ CheckResult.UNDER_REPLICATED := by
  unfold VerifyTablet
  rw [if_pos hcopy]
  exact ⟨rfl, by simp⟩

/-- A tablet view with a copy in progress and one lone agreeing voter:
without the copy it would be counted under-replicated or worse. -/
def tvCopying : TabletView :=
  { consensus_states := [csCommitted, csCommittedB]
    any_replica_copying := true
    reachable_agreeing_voters := 1 }

theorem verifyTablet_copying_recovering_witness :
    tvCopying.any_replica_copying = true ∧
    allPairsMatch tvCopying.consensus_states = true ∧
    (VerifyTablet tvCopying 3 = CheckResult.RECOVERING ∧
     VerifyTablet tvCopying 3 ≠ CheckResult.UNDER_REPLICATED) :=
  ⟨rfl, by decide, verifyTablet_copying_recovering tvCopying 3 rfl (by decide)⟩

/-- Server health verdict (`Ksck::ServerHealth`). -/
inductive ServerHealth where
  | HEALTHY
  | UNAVAILABLE
  | WRONG_SERVER_UUID
deriving DecidableEq, Fintype

/-- Modelled from the spec: the body of `Ksck::ServerHealthScore` lives in
ksck.cc, which is not among the examined sources (ksck.h only declares it as
returning an int signifying the unhealthiness level of a ServerHealth, for
sorting or comparing). The design document fixes the order: UNAVAILABLE is
worse than WRONG_SERVER_UUID, which is worse than HEALTHY. -/
def ServerHealthScore : ServerHealth → Int
  | ServerHealth.HEALTHY => 0
  | ServerHealth.WRONG_SERVER_UUID => 1
  | ServerHealth.UNAVAILABLE => 2

/-- C7: `ServerHealthScore` induces a strict total order with
UNAVAILABLE worse than WRONG_SERVER_UUID worse than HEALTHY, and every
non-empty list of health values has a member of maximal score, the worst
status under that order. -/
theorem serverHealthScore_strict_total_order :
    (∀ a b : ServerHealth, ServerHealthScore a = ServerHealthScore b → a = b) ∧
    ServerHealthScore ServerHealth.HEALTHY <
      ServerHealthScore ServerHealth.WRONG_SERVER_UUID ∧
    ServerHealthScore ServerHealth.WRONG_SERVER_UUID <
      ServerHealthScore ServerHealth.UNAVAILABLE ∧
    (∀ l : List ServerHealth, l ≠ [] →
      ∃ m ∈ l, ∀ x ∈ l, ServerHealthScore x ≤ ServerHealthScore m) := by
  refine ⟨by decide, by decide, by decide, ?_⟩
  intro l
  induction l with
  | nil => intro h; exact absurd rfl h
  | cons a t ih =>
    intro _
    rcases t with _ | ⟨b, u⟩
    · exact ⟨a, List.mem_singleton.mpr rfl, by
        intro x hx
        rw [List.mem_singleton.mp hx]⟩
    · obtain ⟨m, hm, hmax⟩ := ih (List.cons_ne_nil b u)
      by_cases hcmp : ServerHealthScore a ≤ ServerHealthScore m
      · exact ⟨m, List.mem_cons_of_mem a hm, by
          intro x hx
          rcases List.mem_cons.mp hx with h | h
          · exact h ▸ hcmp
          · exact hmax x h⟩
      · exact ⟨a, List.mem_cons_self a _, by
          intro x hx
          rcases List.mem_cons.mp hx with h | h
          · exact h ▸ le_refl _
          · exact le_of_lt (lt_of_le_of_lt (hmax x h) (lt_of_not_le hcmp))⟩

theorem serverHealthScore_strict_total_order_witness :
    ([ServerHealth.HEALTHY, ServerHealth.UNAVAILABLE,
        ServerHealth.WRONG_SERVER_UUID] : List ServerHealth) ≠ [] ∧
    ∃ m ∈ [ServerHealth.HEALTHY, ServerHealth.UNAVAILABLE,
        ServerHealth.WRONG_SERVER_UUID],
      ∀ x ∈ [ServerHealth.HEALTHY, ServerHealth.UNAVAILABLE,
          ServerHealth.WRONG_SERVER_UUID],
        ServerHealthScore x ≤ ServerHealthScore m :=
  ⟨by decide,
   serverHealthScore_strict_total_order.2.2.2
     [ServerHealth.HEALTHY, ServerHealth.UNAVAILABLE,
       ServerHealth.WRONG_SERVER_UUID] (by decide)⟩

/-- `kudu::Status`: OK or an error carrying a message. -/
inductive Status where
  | ok : Status
  | error : String → Status
deriving DecidableEq

/-- Representation of a table (`KsckTable`): name, replication factor
(the schema plays no role in the fetch logic). -/
structure KsckTable where
  name : String
  num_replicas : Int

/-- The outcomes of a `KsckCluster`'s virtual fetch operations, together with
the table list that `tables()` exposes once `RetrieveTablesList` has
succeeded. -/
structure KsckCluster where
  connectResult : Status
  retrieveTablesListResult : Status
  retrieveTabletServersResult : Status
  tables : List KsckTable
  retrieveTabletsListResult : KsckTable → Status

/-- The `RETURN_NOT_OK(x)` macro: propagate a non-OK status immediately,
continue otherwise. -/
def returnNotOk (s : Status) (rest : Status) : Status :=
  match s with
  | Status.ok => rest
  | Status.error e => Status.error e

/-- The loop body of `FetchTableAndTabletInfo`:
`for table in tables { RETURN_NOT_OK(RetrieveTabletsList(table)); }`. -/
def retrieveAllTabletsLists (f : KsckTable → Status) :
    List KsckTable → Status
  | [] => Status.ok
  | t :: ts => returnNotOk (f t) (retrieveAllTabletsLists f ts)

/-- `KsckCluster::FetchTableAndTabletInfo`: direct translation of the
RETURN_NOT_OK chain at ksck.h lines 406-414. -/
def KsckCluster.FetchTableAndTabletInfo (c : KsckCluster) : Status :=
  returnNotOk c.connectResult
    (returnNotOk c.retrieveTablesListResult
      (returnNotOk c.retrieveTabletServersResult
        (retrieveAllTabletsLists c.retrieveTabletsListResult c.tables)))

/-- Helper: the per-table loop returns OK exactly when every table's
retrieval returns OK. -/
theorem retrieveAllTabletsLists_eq_ok_iff (f : KsckTable → Status) :
    ∀ ts : List KsckTable,
      retrieveAllTabletsLists f ts = Status.ok ↔ ∀ t ∈ ts, f t = Status.ok := by
  intro ts
  induction ts with
  | nil => simp [retrieveAllTabletsLists]
  | cons t ts ih =>
    simp only [retrieveAllTabletsLists, List.mem_cons]
    rcases hf : f t with _ | e
    · simp only [returnNotOk, ih]
      constructor
      · intro h x hx
        rcases hx with rfl | hx
        · exact hf
        · exact h x hx
      · intro h x hx
        exact h x (Or.inr hx)
    · simp only [returnNotOk]
      constructor
      · intro h
        exact absurd h (by simp)
      · intro h
        have hh := h t (Or.inl rfl)
        rw [hf] at hh
        exact absurd hh (by simp)

/-- C8: `FetchTableAndTabletInfo` returns OK exactly when `Connect`,
`RetrieveTablesList`, `RetrieveTabletServers` and every per-table
`RetrieveTabletsList` return OK, and it propagates the first non-OK status
immediately — in particular a `Connect` failure aborts the whole fetch. -/
theorem fetchTableAndTabletInfo_spec (c : KsckCluster) :
    (c.FetchTableAndTabletInfo = Status.ok ↔
      (c.connectResult = Status.ok ∧
       c.retrieveTablesListResult = Status.ok ∧
       c.retrieveTabletServersResult = Status.ok ∧
       ∀ t ∈ c.tables, c.retrieveTabletsListResult t = Status.ok)) ∧
    (∀ e, c.connectResult = Status.error e →
      c.FetchTableAndTabletInfo = Status.error e) ∧
    (∀ e, c.connectResult = Status.ok →
      c.retrieveTablesListResult = Status.error e →
      c.FetchTableAndTabletInfo = Status.error e) ∧
    (∀ e, c.connectResult = Status.ok →
      c.retrieveTablesListResult = Status.ok →
      c.retrieveTabletServersResult = Status.error e →
      c.FetchTableAndTabletInfo = Status.error e) := by
  refine ⟨?_, ?_, ?_, ?_⟩
  · rcases h1 : c.connectResult with _ | e1 <;>
      rcases h2 : c.retrieveTablesListResult with _ | e2 <;>
        rcases h3 : c.retrieveTabletServersResult with _ | e3 <;>
          simp [KsckCluster.FetchTableAndTabletInfo, returnNotOk, h1, h2, h3,
            retrieveAllTabletsLists_eq_ok_iff]
  · intro e he
    simp [KsckCluster.FetchTableAndTabletInfo, returnNotOk, he]
  · intro e h1 h2
    simp [KsckCluster.FetchTableAndTabletInfo, returnNotOk, h1, h2]
  · intro e h1 h2 h3
    simp [KsckCluster.FetchTableAndTabletInfo, returnNotOk, h1, h2, h3]

/-- A cluster whose master connection fails. -/
def clusterConnFail : KsckCluster :=
  { connectResult := Status.error "connection refused"
    retrieveTablesListResult := Status.ok
    retrieveTabletServersResult := Status.ok
    tables := [{ name := "t1", num_replicas := 3 }]
    retrieveTabletsListResult := fun _ => Status.ok }

theorem fetchTableAndTabletInfo_spec_witness :
    clusterConnFail.connectResult = Status.error "connection refused" ∧
    clusterConnFail.FetchTableAndTabletInfo =
      Status.error "connection refused" :=
  ⟨rfl, (fetchTableAndTabletInfo_spec clusterConnFail).2.1
    "connection refused" rfl⟩

/-- Fetch status of a ksck master or tablet server (`KsckFetchState`). -/
inductive KsckFetchState where
  | UNINITIALIZED
  | FETCH_FAILED
  | FETCHED
deriving DecidableEq

/-- `KsckMaster`: address, uuid and fetch state (the consensus-state payload
plays no role in `is_healthy`). -/
structure KsckMaster where
  address : String
  uuid : String
  state : KsckFetchState

/-- `KsckMaster::is_healthy`: `CHECK_NE(UNINITIALIZED, state_)` then
`state_ == FETCHED`. The CHECK is modelled as `Option`: `none` is the
aborted (assertion-failure) branch. -/
def KsckMaster.is_healthy (m : KsckMaster) : Option Bool :=
  if m.state = KsckFetchState.UNINITIALIZED then
    none
  else
    some (decide (m.state = KsckFetchState.FETCHED))

/-- `KsckTabletServer`: uuid and fetch state (the status and consensus maps
play no role in `is_healthy`). -/
structure KsckTabletServer where
  uuid : String
  state : KsckFetchState

/-- `KsckTabletServer::is_healthy`: same body as the master's. -/
def KsckTabletServer.is_healthy (t : KsckTabletServer) : Option Bool :=
  if t.state = KsckFetchState.UNINITIALIZED then
    none
  else
    some (decide (t.state = KsckFetchState.FETCHED))

/-- C9: once a fetch attempt has completed (state is not UNINITIALIZED),
`is_healthy` of a master or tablet server never hits its CHECK, returns true
exactly on FETCHED and false exactly on FETCH_FAILED. -/
theorem is_healthy_iff_fetched (m : KsckMaster) (t : KsckTabletServer)
    (hm : m.state ≠ KsckFetchState.UNINITIALIZED)
    (ht : t.state ≠ KsckFetchState.UNINITIALIZED) :
    m.is_healthy ≠ none ∧
    (m.is_healthy = some true ↔ m.state = KsckFetchState.FETCHED) ∧
    (m.is_healthy = some false ↔ m.state = KsckFetchState.FETCH_FAILED) ∧
    t.is_healthy ≠ none ∧
    (t.is_healthy = some true ↔ t.state = KsckFetchState.FETCHED) ∧
    (t.is_healthy = some false ↔ t.state = KsckFetchState.FETCH_FAILED) := by
  rcases m with ⟨ma, mu, ms⟩
  rcases t with ⟨tu, tss⟩
  cases ms <;> cases tss <;>
    simp_all [KsckMaster.is_healthy, KsckTabletServer.is_healthy]

theorem is_healthy_iff_fetched_witness :
    (KsckMaster.state ⟨"addr", "m1", KsckFetchState.FETCHED⟩ ≠
      KsckFetchState.UNINITIALIZED) ∧
    (KsckTabletServer.state ⟨"ts1", KsckFetchState.FETCH_FAILED⟩ ≠
      KsckFetchState.UNINITIALIZED) ∧
    (KsckMaster.is_healthy ⟨"addr", "m1", KsckFetchState.FETCHED⟩ =
        some true ↔
      KsckMaster.state ⟨"addr", "m1", KsckFetchState.FETCHED⟩ =
        KsckFetchState.FETCHED) ∧
    (KsckTabletServer.is_healthy ⟨"ts1", KsckFetchState.FETCH_FAILED⟩ =
        some false ↔
      KsckTabletServer.state ⟨"ts1", KsckFetchState.FETCH_FAILED⟩ =
        KsckFetchState.FETCH_FAILED) :=
  ⟨by decide, by decide,
   (is_healthy_iff_fetched ⟨"addr", "m1", KsckFetchState.FETCHED⟩
     ⟨"ts1", KsckFetchState.FETCH_FAILED⟩ (by decide) (by decide)).2.1,
   (is_healthy_iff_fetched ⟨"addr", "m1", KsckFetchState.FETCHED⟩
     ⟨"ts1", KsckFetchState.FETCH_FAILED⟩ (by decide) (by decide)).2.2.2.2.2⟩
